import Mathlib

/-!
Shallow embedding of `src/ai_wrapper.py` (class `AIProjectAssistant`).

The Python module wraps two AI backends (OpenAI and Ollama).  We embed:

* the constructor `__init__` (provider detection) as `init`, parametrised by
  an `InitEnv` describing the environment (credential, constructor outcome,
  local-server probe outcome);
* `get_available_models` as a function of the wrapper state and the outcome
  of the `GET /api/tags` request (`TagsOutcome`);
* `send_prompt` as a function of the wrapper state, a `World` fixing the
  outcome of whichever network request would be issued, and the call
  arguments; it returns the Python result dict (as `PromptResult`) inside
  `Except String` (the `Except.error` case models an exception escaping to
  the caller), together with the list of network requests issued.

Python dicts with string keys are embedded as association lists, Python
`None` as `Option.none`, and CPython truthiness of strings/floats is made
explicit (`pyOrStr`, `pyTemp`).  Temperatures are embedded as `ℚ`: the code
only passes them through unchanged, so an exact numeric type is faithful.
-/

/-- Python `a or b` for optional strings: `None` and `""` are falsy. -/
def pyOrStr (a b : Option String) : Option String :=
  match a with
  | some s => if s = "" then b else some s
  | none => b

/-- Rendering of an optional string inside a Python f-string
(`None` prints as `"None"`). -/
def pyShowProv : Option String → String
  | some s => s
  | none => "None"

/-- Python `s.split(":")` (single-character separator), accumulator on the
reversed current chunk. -/
def splitColonAux : List Char → List Char → List String
  | [], acc => [String.mk acc.reverse]
  | c :: cs, acc =>
    if c = ':' then String.mk acc.reverse :: splitColonAux cs []
    else splitColonAux cs (c :: acc)

/-- Python `s.split(":")`. -/
def splitColon (s : String) : List String := splitColonAux s.data []

/-- Python `s.split(":")[0]` (the split list is never empty). -/
def splitColonHead (s : String) : String := (splitColon s).headD ""

/-- Python `":" in s`. -/
def hasColon (s : String) : Bool := s.data.any (fun c => c == ':')

/-- Join chunks back with `":"` between them. -/
def joinColon : List String → String
  | [] => ""
  | [s] => s
  | s :: t :: rest => s ++ ":" ++ joinColon (t :: rest)

/-- Modelled from the spec: "strips any trailing `:tag` qualifier from each
name" — if the name contains a colon, drop the part starting at the LAST
colon (the trailing qualifier); otherwise return the name unchanged. -/
def stripTrailingQualifier (s : String) : String :=
  let parts := splitColon s
  if parts.length ≤ 1 then s else joinColon parts.dropLast

/-- Wrapper state after `__init__` (`self.…` attributes).  `default_model`
is `none` when the attribute was never assigned (reading it then raises
`AttributeError`).  `openai_client = true` models a constructed `OpenAI`
client object. -/
structure AIProjectAssistant where
  openai_client : Bool
  ollama_endpoint : String
  current_provider : Option String
  default_temperature : ℚ
  default_model : Option String
deriving DecidableEq

/-- Environment seen by `__init__`: the `OPENAI_API_KEY` variable, whether
the `OpenAI(api_key=…)` constructor succeeds, and the status of
`GET /api/version` (`none` = the request raised). -/
structure InitEnv where
  api_key : Option String
  openai_ctor_ok : Bool
  ollama_status : Option Nat
deriving DecidableEq

/-- The OpenAI branch of `__init__` runs iff the key is present, non-empty
(Python truthiness) and the client constructor does not raise. -/
def openaiDetected (env : InitEnv) : Bool :=
  match env.api_key with
  | some k => if k = "" then false else env.openai_ctor_ok
  | none => false

/-- State before any detection: lines 36–39 of `__init__`. -/
def baseState : AIProjectAssistant :=
  { openai_client := false
    ollama_endpoint := "http://localhost:11434"
    current_provider := none
    default_temperature := 7/10
    default_model := none }

/-- Lines 42–50 of `__init__`: on detection set the client, make `openai`
current and set the default model; on constructor failure the exception is
caught and nothing is assigned. -/
def initOpenAI (env : InitEnv) : AIProjectAssistant :=
  if openaiDetected env then
    { baseState with
        openai_client := true
        current_provider := some "openai"
        default_model := some "gpt-4" }
  else baseState

/-- `__init__` (lines 34–60).  The Ollama probe: if `requests.get` raised
nothing is assigned; on HTTP 200 the current provider falls back to
`"ollama"` (`self.current_provider or "ollama"`) and the default model is
unconditionally overwritten with `"llama3.2:latest"`.  (The subsequent
`logger.info` line may raise on a non-JSON body, but it executes after both
assignments and is caught, so it does not affect the state.) -/
def init (env : InitEnv) : AIProjectAssistant :=
  match env.ollama_status with
  | some status =>
    if status = 200 then
      { initOpenAI env with
          current_provider := pyOrStr (initOpenAI env).current_provider (some "ollama")
          default_model := some "llama3.2:latest" }
    else initOpenAI env
  | none => initOpenAI env

/-- Value of the `tokens_used` key of the result dict: an integer (OpenAI),
a string (the Ollama branch stores the sentinel `"N/A"`), or Python `None`
(never produced by the code; needed to state the spec's `null`). -/
inductive TokensUsed
  | vInt (n : Int)
  | vStr (s : String)
  | vNull
deriving DecidableEq

/-- The result dict of `send_prompt`: `{"success": True, "content": …,
"tokens_used": …}` or `{"success": False, "error": …}`. -/
inductive PromptResult
  | success (content : String) (tokens_used : TokensUsed)
  | failure (error : String)
deriving DecidableEq

/-- A network request issued during `send_prompt`. -/
inductive NetworkCall
  | openaiChat (mdl : String) (prompt : String) (temperature : ℚ)
  | ollamaGenerate (endpoint : String) (mdl : String) (prompt : String) (temperature : ℚ)
deriving DecidableEq

/-- Outcome of `self.openai_client.chat.completions.create(…)` including
the subsequent field accesses: either some exception, or a first-choice
message content plus `usage.total_tokens`. -/
inductive ChatOutcome
  | exn (msg : String)
  | ok (content : String) (total_tokens : Int)

/-- Outcome of `requests.post(…/api/generate, …)`: either the request
raised, or a response with a status code and a body; the body is either not
JSON (`Except.error` = `response.json()` raises) or JSON with an optional
`"response"` field. -/
inductive GenOutcome
  | exn (msg : String)
  | resp (status : Nat) (body : Except String (Option String))

/-- Outcomes of the network requests `send_prompt` might issue. -/
structure World where
  chat : ChatOutcome
  gen : GenOutcome

/-- Line 100: `provider = provider or self.current_provider`. -/
def resolveProvider (st : AIProjectAssistant) (prov : Option String) : Option String :=
  pyOrStr prov st.current_provider

/-- Python `temperature or dflt`: `None` and `0.0` are falsy. -/
def pyTemp (dflt : ℚ) : Option ℚ → ℚ
  | some t => if t = 0 then dflt else t
  | none => dflt

/-- Line 101: `temp = temperature or self.default_temperature`. -/
def resolveTemp (st : AIProjectAssistant) (te : Option ℚ) : ℚ :=
  pyTemp st.default_temperature te

/-- Reading `self.default_model`; raises `AttributeError` when `__init__`
never assigned it (neither provider was detected). -/
def defaultModelOrRaise (st : AIProjectAssistant) : Except String String :=
  match st.default_model with
  | some d => Except.ok d
  | none => Except.error "AttributeError: AIProjectAssistant object has no attribute default_model"

/-- Lines 104–110, model selection.  For `"openai"`: `model or "gpt-4"`.
Otherwise: append `":latest"` only when an explicit, non-empty model
without a colon is given (`if model and not ":" in model`); in every other
case — no model, empty model, or a model already containing `":"` — read
`self.default_model`. -/
def resolveModel (st : AIProjectAssistant) (prov mo : Option String) :
    Except String String :=
  if prov = some "openai" then
    Except.ok (match mo with
      | some m => if m = "" then "gpt-4" else m
      | none => "gpt-4")
  else
    match mo with
    | some m =>
      if m ≠ "" ∧ hasColon m = false then Except.ok (m ++ ":latest")
      else defaultModelOrRaise st
    | none => defaultModelOrRaise st

/-- `send_prompt` (lines 83–155).  Returns the Python result dict in
`Except.ok`, or `Except.error` for an exception escaping to the caller
(only the pre-`try` model resolution can do that), together with the list
of network requests issued.  Inside the `try` block every exception is
caught and converted to the failure dict; `raise_for_status()` raises for
status ≥ 400, before the body is parsed. -/
def send_prompt (st : AIProjectAssistant) (w : World) (prompt : String)
    (prov mo : Option String) (te : Option ℚ) :
    Except String PromptResult × List NetworkCall :=
  let provider := resolveProvider st prov
  let temp := resolveTemp st te
  match resolveModel st provider mo with
  | Except.error e => (Except.error e, [])
  | Except.ok mdl =>
    if provider = some "openai" ∧ st.openai_client = true then
      match w.chat with
      | ChatOutcome.exn msg =>
        (Except.ok (PromptResult.failure msg), [NetworkCall.openaiChat mdl prompt temp])
      | ChatOutcome.ok content toks =>
        (Except.ok (PromptResult.success content (TokensUsed.vInt toks)),
         [NetworkCall.openaiChat mdl prompt temp])
    else if provider = some "ollama" then
      match w.gen with
      | GenOutcome.exn msg =>
        (Except.ok (PromptResult.failure msg),
         [NetworkCall.ollamaGenerate st.ollama_endpoint mdl prompt temp])
      | GenOutcome.resp status body =>
        if 400 ≤ status then
          (Except.ok (PromptResult.failure
             ("HTTP error " ++ toString status ++ " for url " ++
              st.ollama_endpoint ++ "/api/generate")),
           [NetworkCall.ollamaGenerate st.ollama_endpoint mdl prompt temp])
        else
          match body with
          | Except.error msg =>
            (Except.ok (PromptResult.failure msg),
             [NetworkCall.ollamaGenerate st.ollama_endpoint mdl prompt temp])
          | Except.ok r =>
            (Except.ok (PromptResult.success (r.getD "") (TokensUsed.vStr "N/A")),
             [NetworkCall.ollamaGenerate st.ollama_endpoint mdl prompt temp])
    else
      (Except.ok (PromptResult.failure
         ("Invalid or unavailable provider: " ++ pyShowProv provider)), [])

/-- Outcome of `GET /api/tags` in `get_available_models`: the request
raised, or a response whose body is either not JSON, or a list of model
descriptors each with an optional `"name"` key (a missing key raises
`KeyError` inside the comprehension). -/
inductive TagsOutcome
  | exn (msg : String)
  | resp (status : Nat) (body : Except String (List (Option String)))

/-- Python dict assignment on an existing key (order preserved). -/
def dictSet (d : List (String × List String)) (k : String) (v : List String) :
    List (String × List String) :=
  d.map (fun p => if p.1 = k then (k, v) else p)

/-- Python dict lookup. -/
def dictGet (d : List (String × List String)) (k : String) : Option (List String) :=
  (d.find? (fun p => p.1 == k)).map Prod.snd

/-- The list comprehension `[model["name"] for model in …]` succeeds only
when every descriptor has a `"name"` key; otherwise `KeyError` aborts the
whole assignment. -/
def namesAll : List (Option String) → Option (List String)
  | [] => some []
  | some n :: rest => (namesAll rest).map (fun ns => n :: ns)
  | none :: _ => none

/-- `get_available_models` (lines 62–81): start with
`{"openai": [], "ollama": []}`; fill `"openai"` with the fixed list only if
the client exists; fill `"ollama"` from `GET /api/tags` on HTTP 200, taking
`name.split(":")[0]` of each descriptor; any exception is caught and leaves
the entry empty. -/
def get_available_models (st : AIProjectAssistant) (tags : TagsOutcome) :
    List (String × List String) :=
  let models : List (String × List String) := [("openai", []), ("ollama", [])]
  let models :=
    if st.openai_client then
      dictSet models "openai" ["gpt-4", "gpt-3.5-turbo", "gpt-4-turbo"]
    else models
  match tags with
  | TagsOutcome.exn _ => models
  | TagsOutcome.resp status body =>
    if status = 200 then
      match body with
      | Except.error _ => models
      | Except.ok descs =>
        match namesAll descs with
        | some names => dictSet models "ollama" (names.map splitColonHead)
        | none => models
    else models

/-- The `"ollama"` entry produced by `get_available_models` for a given
tags-request outcome (characterization used in proofs). -/
def ollamaNames : TagsOutcome → List String
  | TagsOutcome.exn _ => []
  | TagsOutcome.resp status body =>
    if status = 200 then
      match body with
      | Except.error _ => []
      | Except.ok descs =>
        match namesAll descs with
        | some names => names.map splitColonHead
        | none => []
    else []

/-- Model name carried by a network request. -/
def callModel : NetworkCall → String
  | NetworkCall.openaiChat m _ _ => m
  | NetworkCall.ollamaGenerate _ m _ _ => m

/-- Temperature carried by a network request. -/
def callTemp : NetworkCall → ℚ
  | NetworkCall.openaiChat _ _ t => t
  | NetworkCall.ollamaGenerate _ _ _ t => t

/-- Did the call return normally (`true`) or raise (`false`)? -/
def exceptIsOk : Except String PromptResult → Bool
  | Except.ok _ => true
  | Except.error _ => false

/-- Environment: no credential, local server unreachable. -/
def envNone : InitEnv :=
  { api_key := none, openai_ctor_ok := true, ollama_status := none }

/-- Environment: no credential, local server answers the probe with 200. -/
def envOllama : InitEnv :=
  { api_key := none, openai_ctor_ok := true, ollama_status := some 200 }

/-- Environment: credential present and client constructed, local server
answers the probe with 200. -/
def envBoth : InitEnv :=
  { api_key := some "sk-test", openai_ctor_ok := true, ollama_status := some 200 }

/-- World in which any attempted request raises (e.g. connection refused). -/
def wQuiet : World :=
  { chat := ChatOutcome.exn "connection refused"
    gen := GenOutcome.exn "connection refused" }

/-- World in which the generate endpoint answers 200 with body
`{"response": t}`. -/
def wGenText (t : String) : World :=
  { chat := ChatOutcome.exn "unused"
    gen := GenOutcome.resp 200 (Except.ok (some t)) }

/-! ## Shared helper lemmas -/

theorem initOpenAI_current (env : InitEnv) :
    (initOpenAI env).current_provider =
      (if openaiDetected env then some "openai" else none) := by
  unfold initOpenAI baseState
  split <;> rfl

theorem init_default_temperature (env : InitEnv) :
    (init env).default_temperature = 7/10 := by
  have h1 : (initOpenAI env).default_temperature = 7/10 := by
    unfold initOpenAI baseState
    split <;> rfl
  unfold init
  cases env.ollama_status with
  | none => exact h1
  | some status =>
    dsimp only
    split
    · exact h1
    · exact h1

theorem resolveModel_isOk (st : AIProjectAssistant) (prov mo : Option String)
    (d : String) (hd : st.default_model = some d) :
    ∃ mm, resolveModel st prov mo = Except.ok mm := by
  unfold resolveModel defaultModelOrRaise
  split
  · exact ⟨_, rfl⟩
  · cases mo with
    | none => rw [hd]; exact ⟨d, rfl⟩
    | some m =>
      dsimp only
      split
      · exact ⟨_, rfl⟩
      · rw [hd]; exact ⟨d, rfl⟩

theorem send_prompt_call_temp (st : AIProjectAssistant) (w : World) (p : String)
    (prov mo : Option String) (te : Option ℚ) (c : NetworkCall)
    (hc : c ∈ (send_prompt st w p prov mo te).2) :
    callTemp c = resolveTemp st te := by
  unfold send_prompt at hc
  dsimp only at hc
  cases hm : resolveModel st (resolveProvider st prov) mo with
  | error e => rw [hm] at hc; simp at hc
  | ok mdl =>
    rw [hm] at hc
    repeat' split at hc
    all_goals simp_all [callTemp]

theorem namesAll_map_some (names : List String) :
    namesAll (names.map some) = some names := by
  induction names with
  | nil => rfl
  | cons n rest ih => simp [namesAll, ih]

theorem dictGet_openai (l1 l2 : List String) :
    dictGet [("openai", l1), ("ollama", l2)] "openai" = some l1 := rfl

theorem dictGet_ollama (l1 l2 : List String) :
    dictGet [("openai", l1), ("ollama", l2)] "ollama" = some l2 := rfl

theorem get_available_models_eq (st : AIProjectAssistant) (tags : TagsOutcome) :
    get_available_models st tags =
      [("openai",
         if st.openai_client then ["gpt-4", "gpt-3.5-turbo", "gpt-4-turbo"] else []),
       ("ollama", ollamaNames tags)] := by
  cases hcl : st.openai_client <;>
  cases tags with
  | exn msg => simp [get_available_models, ollamaNames, hcl, dictSet]
  | resp status body =>
    by_cases h2 : status = 200
    · cases body with
      | error m => simp [get_available_models, ollamaNames, hcl, h2, dictSet]
      | ok descs =>
        cases hn : namesAll descs <;>
          simp [get_available_models, ollamaNames, hcl, h2, hn, dictSet]
    · simp [get_available_models, ollamaNames, hcl, h2, dictSet]

/-! ## Claims -/

/-- C5 (amended): after initialization the current provider is `"openai"` if
the credential was present and the client constructed, else `"ollama"` if
the local probe returned HTTP 200, else `none` — so a provider is current
only when at least one was detected, with CloudAPI taking priority. -/
theorem c5_current_provider_priority (env : InitEnv) :
    (init env).current_provider =
      (if openaiDetected env then some "openai"
       else if env.ollama_status = some 200 then some "ollama"
       else none) := by
  unfold init
  cases h : env.ollama_status with
  | none => simp [initOpenAI_current]
  | some status =>
    dsimp only
    by_cases h200 : status = 200
    · subst h200
      by_cases hoa : openaiDetected env = true
      · simp [hoa, initOpenAI_current, pyOrStr]
      · simp [hoa, initOpenAI_current, pyOrStr]
    · by_cases hoa : openaiDetected env = true
      · simp [hoa, h200, initOpenAI_current]
      · simp [hoa, h200, initOpenAI_current]

/-- C5 counterexample: with the credential absent and the local server
unreachable, no provider at all is designated current (`current_provider`
is `None`), contradicting "exactly one provider is designated current for
every combination of detection outcomes". -/
theorem c5_counterexample :
    (init envNone).current_provider = none ∧
    (init envNone).current_provider ≠ some "openai" ∧
    (init envNone).current_provider ≠ some "ollama" := by
  refine ⟨rfl, by decide, by decide⟩

/-- C9: whenever the local probe returns HTTP 200, `__init__` sets the
stored default model to `"llama3.2:latest"` unconditionally, overwriting
any OpenAI default — regardless of whether the credential was present. -/
theorem c9_default_model_override (env : InitEnv)
    (h : env.ollama_status = some 200) :
    (init env).default_model = some "llama3.2:latest" := by
  unfold init
  rw [h]
  simp

/-- C9 witness: with both providers detected the current provider is
`"openai"` while the stored default model is still `"llama3.2:latest"`. -/
theorem c9_witness :
    (init envBoth).current_provider = some "openai" ∧
    (init envBoth).default_model = some "llama3.2:latest" :=
  ⟨rfl, c9_default_model_override envBoth rfl⟩

/-- C10: `get_available_models` always returns a dict with exactly the keys
`"openai"` and `"ollama"` in that order; the `"openai"` entry is empty when
the client is uninitialized, and the `"ollama"` entry is empty when the
tags request raised or returned a non-200 status. -/
theorem c10_models_dict_shape (st : AIProjectAssistant) (tags : TagsOutcome) :
    ((get_available_models st tags).map Prod.fst = ["openai", "ollama"]) ∧
    (st.openai_client = false →
      dictGet (get_available_models st tags) "openai" = some []) ∧
    (∀ msg, tags = TagsOutcome.exn msg →
      dictGet (get_available_models st tags) "ollama" = some []) ∧
    (∀ status body, tags = TagsOutcome.resp status body → status ≠ 200 →
      dictGet (get_available_models st tags) "ollama" = some []) := by
  refine ⟨?_, ?_, ?_, ?_⟩
  · rw [get_available_models_eq]
    rfl
  · intro h
    rw [get_available_models_eq, dictGet_openai, h]
    rfl
  · intro msg h
    subst h
    rw [get_available_models_eq, dictGet_ollama]
    rfl
  · intro status body h hne
    subst h
    rw [get_available_models_eq, dictGet_ollama]
    simp [ollamaNames, hne]

/-- C10 witness: with no client and the tags request raising, both entries
are present and empty. -/
theorem c10_witness :
    dictGet (get_available_models (init envNone) (TagsOutcome.exn "refused")) "openai"
      = some [] ∧
    dictGet (get_available_models (init envNone) (TagsOutcome.exn "refused")) "ollama"
      = some [] :=
  ⟨(c10_models_dict_shape (init envNone) (TagsOutcome.exn "refused")).2.1 rfl,
   (c10_models_dict_shape (init envNone) (TagsOutcome.exn "refused")).2.2.1 "refused" rfl⟩

/-- C7 (amended): whenever the OpenAI client was initialized, the
`"openai"` entry of `get_available_models` is the fixed three-element list,
regardless of the tags-request outcome; when the client is uninitialized
the entry is empty instead (see the counterexample). -/
theorem c7_openai_fixed_list (st : AIProjectAssistant) (tags : TagsOutcome)
    (h : st.openai_client = true) :
    dictGet (get_available_models st tags) "openai" =
      some ["gpt-4", "gpt-3.5-turbo", "gpt-4-turbo"] := by
  rw [get_available_models_eq, dictGet_openai, h]
  rfl

/-- C7 counterexample: in the reachable wrapper state where only Ollama was
detected, the `"openai"` entry is the empty list, not the fixed
three-element list — refuting "for every wrapper state". -/
theorem c7_counterexample :
    dictGet (get_available_models (init envOllama)
        (TagsOutcome.resp 200 (Except.ok [some "llama3.2:latest"]))) "openai"
      = some [] ∧
    some ([] : List String) ≠ some ["gpt-4", "gpt-3.5-turbo", "gpt-4-turbo"] := by
  refine ⟨rfl, by decide⟩

/-- C7 witness: with the client initialized and the tags request raising,
the `"openai"` entry is the fixed list. -/
theorem c7_witness :
    dictGet (get_available_models (init envBoth) (TagsOutcome.exn "refused")) "openai"
      = some ["gpt-4", "gpt-3.5-turbo", "gpt-4-turbo"] :=
  c7_openai_fixed_list (init envBoth) (TagsOutcome.exn "refused") rfl

/-- C8 (amended): on an HTTP 200 tags response the `"ollama"` entry is each
returned name truncated at its FIRST colon (`name.split(":")[0]`); this
coincides with stripping the trailing `:tag` qualifier for names containing
at most one colon, and in particular on the spec's example
`"llama3.2:latest" ↦ "llama3.2"`. -/
theorem c8_ollama_split_head (st : AIProjectAssistant) (names : List String) :
    dictGet (get_available_models st
        (TagsOutcome.resp 200 (Except.ok (names.map some)))) "ollama"
      = some (names.map splitColonHead) ∧
    splitColonHead "llama3.2:latest" = stripTrailingQualifier "llama3.2:latest" ∧
    stripTrailingQualifier "llama3.2:latest" = "llama3.2" := by
  refine ⟨?_, rfl, rfl⟩
  rw [get_available_models_eq, dictGet_ollama]
  simp [ollamaNames, namesAll_map_some]

/-- C8 counterexample: for a name with two colons the code keeps only the
part before the FIRST colon (`"a:b:c" ↦ "a"`), while stripping the trailing
`:tag` qualifier would keep `"a:b"` — so the universally quantified claim
"strips the trailing qualifier from each returned name" fails. -/
theorem c8_counterexample :
    dictGet (get_available_models (init envOllama)
        (TagsOutcome.resp 200 (Except.ok [some "a:b:c"]))) "ollama" = some ["a"] ∧
    stripTrailingQualifier "a:b:c" = "a:b" ∧
    ("a" : String) ≠ "a:b" := by
  refine ⟨rfl, rfl, by decide⟩

/-- C1 (amended): for a `send_prompt` call dispatched to the Ollama
provider, when the wrapper stores a default model: an explicit non-empty
model WITHOUT a colon is dispatched as `model:latest`; in every other case
— no model given, OR an explicit model already containing a `:` qualifier —
the stored default model is dispatched (a qualified model is NOT passed
through unchanged). -/
theorem c1_ollama_model_resolution (st : AIProjectAssistant) (w : World)
    (p : String) (mo : Option String) (te : Option ℚ) (d : String)
    (hd : st.default_model = some d) :
    (send_prompt st w p (some "ollama") mo te).2.map callModel =
      [match mo with
       | some m => if m ≠ "" ∧ hasColon m = false then m ++ ":latest" else d
       | none => d] := by
  have hprov : resolveProvider st (some "ollama") = some "ollama" := by
    simp [resolveProvider, pyOrStr]
  have hm : resolveModel st (some "ollama") mo =
      Except.ok (match mo with
        | some m => if m ≠ "" ∧ hasColon m = false then m ++ ":latest" else d
        | none => d) := by
    unfold resolveModel defaultModelOrRaise
    rw [if_neg (by decide : ¬(some "ollama" : Option String) = some "openai")]
    cases mo with
    | none => rw [hd]
    | some m =>
      dsimp only
      split
      · rfl
      · rw [hd]
  unfold send_prompt
  dsimp only
  rw [hprov, hm]
  dsimp only
  rw [if_neg (by simp :
        ¬((some "ollama" : Option String) = some "openai" ∧ st.openai_client = true)),
      if_pos rfl]
  cases w.gen with
  | exn msg => simp [callModel]
  | resp status body =>
    by_cases hs : 400 ≤ status
    · simp [hs, callModel]
    · cases body <;> simp [hs, callModel]

/-- C1 counterexample: with the stored default `"llama3.2:latest"`, an
explicit model `"mistral:7b"` (already qualified) is NOT passed through:
the generate call is dispatched with the stored default model instead. -/
theorem c1_counterexample :
    (send_prompt (init envBoth) (wGenText "ok") "hi"
        (some "ollama") (some "mistral:7b") none).2.map callModel
      = ["llama3.2:latest"] ∧
    ("llama3.2:latest" : String) ≠ "mistral:7b" := by
  refine ⟨rfl, by decide⟩

/-- C1 witness: an unqualified explicit model `"mistral"` is dispatched as
`"mistral:latest"`. -/
theorem c1_witness :
    (send_prompt (init envOllama) (wGenText "ok") "hi"
        (some "ollama") (some "mistral") none).2.map callModel
      = ["mistral:latest"] := by
  have h := c1_ollama_model_resolution (init envOllama) (wGenText "ok") "hi"
      (some "mistral") none "llama3.2:latest" rfl
  exact h

/-- C2 (amended): when the resolved provider is neither `"ollama"` nor an
initialized `"openai"`, and the model-resolution step succeeds (a default
model is stored, or an explicit non-empty unqualified model was given),
`send_prompt` returns the failure dict whose message names the resolved
provider, and issues no network request.  (When model resolution hits a
missing `default_model` attribute the call raises instead — see the
counterexample.) -/
theorem c2_invalid_provider_failure (st : AIProjectAssistant) (w : World)
    (p : String) (prov mo : Option String) (te : Option ℚ) (mm : String)
    (h1 : resolveProvider st prov ≠ some "ollama")
    (h2 : ¬(resolveProvider st prov = some "openai" ∧ st.openai_client = true))
    (h3 : resolveModel st (resolveProvider st prov) mo = Except.ok mm) :
    send_prompt st w p prov mo te =
      (Except.ok (PromptResult.failure
         ("Invalid or unavailable provider: " ++ pyShowProv (resolveProvider st prov))),
       []) := by
  unfold send_prompt
  dsimp only
  rw [h3]
  dsimp only
  rw [if_neg h2, if_neg h1]

/-- C2 counterexample: in the wrapper state where neither provider was
detected, naming the unknown provider `"badprovider"` (with no explicit
model) raises `AttributeError` out of `send_prompt` instead of returning a
Failure result. -/
theorem c2_counterexample :
    send_prompt (init envNone) wQuiet "hi" (some "badprovider") none none =
      (Except.error
         "AttributeError: AIProjectAssistant object has no attribute default_model",
       []) ∧
    exceptIsOk (send_prompt (init envNone) wQuiet "hi"
        (some "badprovider") none none).1 = false :=
  ⟨rfl, rfl⟩

/-- C2 witness: with only Ollama detected, naming `"openai"` (whose client
was never initialized) yields the failure dict naming the provider, with no
network request. -/
theorem c2_witness :
    send_prompt (init envOllama) wQuiet "hi" (some "openai") none none =
      (Except.ok (PromptResult.failure "Invalid or unavailable provider: openai"),
       []) := by
  have h := c2_invalid_provider_failure (init envOllama) wQuiet "hi"
      (some "openai") none none "gpt-4" (by decide) (by decide) rfl
  exact h

/-- C3 (amended): whenever the wrapper stores a default model (i.e. at
least one provider was detected at initialization), `send_prompt` never
raises: it returns a result dict for every argument combination and every
network outcome.  (In the state where neither provider was detected, a call
whose model resolution reads the missing default raises `AttributeError` —
see the counterexample.) -/
theorem c3_no_raise_with_default_model (st : AIProjectAssistant) (w : World)
    (p : String) (prov mo : Option String) (te : Option ℚ) (d : String)
    (hd : st.default_model = some d) :
    exceptIsOk (send_prompt st w p prov mo te).1 = true := by
  obtain ⟨mm, hm⟩ := resolveModel_isOk st (resolveProvider st prov) mo d hd
  unfold send_prompt
  dsimp only
  rw [hm]
  dsimp only
  repeat' split
  all_goals rfl

/-- C3 counterexample: in the state where neither provider was detected,
`send_prompt` with all-default arguments raises `AttributeError` to its
caller (the exception arises before the `try` block), refuting "never
raises for every wrapper state". -/
theorem c3_counterexample :
    exceptIsOk (send_prompt (init envNone) wQuiet "hi" none none none).1 = false ∧
    (send_prompt (init envNone) wQuiet "hi" none none none).1 =
      Except.error
        "AttributeError: AIProjectAssistant object has no attribute default_model" :=
  ⟨rfl, rfl⟩

/-- C3 witness: with Ollama detected and the network down, the call still
returns (a Failure dict) rather than raising. -/
theorem c3_witness :
    exceptIsOk (send_prompt (init envOllama) wQuiet "hi" none none none).1 = true :=
  c3_no_raise_with_default_model (init envOllama) wQuiet "hi" none none none
    "llama3.2:latest" rfl

/-- C4 (amended): every network request dispatched by `send_prompt` carries
temperature `0.7` when no temperature argument is given, the explicit value
when a NON-ZERO value is given, and `0.7` — not `0.0` — when the explicit
value `0.0` is given (CPython `or` treats `0.0` as falsy). -/
theorem c4_temperature_resolution (env : InitEnv) (w : World) (p : String)
    (prov mo : Option String) (te : Option ℚ) (c : NetworkCall)
    (hc : c ∈ (send_prompt (init env) w p prov mo te).2) :
    callTemp c = pyTemp (7/10) te := by
  rw [send_prompt_call_temp (init env) w p prov mo te c hc, resolveTemp,
    init_default_temperature]

/-- C4 counterexample: an explicit temperature of `0.0` is dispatched as
`0.7`, not as the given value — refuting "an explicit value in [0,1]
(including 0.0) is dispatched exactly". -/
theorem c4_counterexample :
    (send_prompt (init envOllama) (wGenText "ok") "hi"
        (some "ollama") (some "llama3.2") (some 0)).2.map callTemp = [7/10] ∧
    (7/10 : ℚ) ≠ 0 := by
  refine ⟨rfl, by norm_num⟩

/-- C4 witness: with no temperature argument the dispatched generate call
carries temperature `0.7`. -/
theorem c4_witness :
    callTemp (NetworkCall.ollamaGenerate "http://localhost:11434"
        "llama3.2:latest" "hi" (7/10)) = pyTemp (7/10) none ∧
    NetworkCall.ollamaGenerate "http://localhost:11434" "llama3.2:latest" "hi" (7/10) ∈
      (send_prompt (init envOllama) (wGenText "ok") "hi" (some "ollama") none none).2 := by
  constructor
  · exact c4_temperature_resolution envOllama (wGenText "ok") "hi" (some "ollama")
      none none _ (List.Mem.head _)
  · exact List.Mem.head _

/-- C6 (amended): an Ollama dispatch whose generate endpoint answers
HTTP 200 with body `{"response": t}` yields the success dict with content
`t` and `tokens_used` equal to the sentinel STRING `"N/A"` — reported as
unavailable, but not as a null value. -/
theorem c6_ollama_success_shape (st : AIProjectAssistant) (w : World)
    (p t : String) (mo : Option String) (te : Option ℚ) (mm : String)
    (hgen : w.gen = GenOutcome.resp 200 (Except.ok (some t)))
    (hm : resolveModel st (some "ollama") mo = Except.ok mm) :
    (send_prompt st w p (some "ollama") mo te).1 =
      Except.ok (PromptResult.success t (TokensUsed.vStr "N/A")) := by
  have hprov : resolveProvider st (some "ollama") = some "ollama" := by
    simp [resolveProvider, pyOrStr]
  unfold send_prompt
  dsimp only
  rw [hprov, hm]
  dsimp only
  rw [if_neg (by simp :
        ¬((some "ollama" : Option String) = some "openai" ∧ st.openai_client = true)),
      if_pos rfl, hgen]
  rfl

/-- C6 counterexample: the success dict stores the string `"N/A"` in
`tokens_used`, which is not the null value the claim asserts. -/
theorem c6_counterexample :
    (send_prompt (init envOllama) (wGenText "...text...") "describe X"
        (some "ollama") (some "llama3.2") none).1 =
      Except.ok (PromptResult.success "...text..." (TokensUsed.vStr "N/A")) ∧
    TokensUsed.vStr "N/A" ≠ TokensUsed.vNull := by
  refine ⟨rfl, by decide⟩

/-- C6 witness: end-to-end success shape at a concrete input. -/
theorem c6_witness :
    (send_prompt (init envOllama) (wGenText "hello") "describe X"
        (some "ollama") (some "llama3.2") none).1 =
      Except.ok (PromptResult.success "hello" (TokensUsed.vStr "N/A")) :=
  c6_ollama_success_shape (init envOllama) (wGenText "hello") "describe X" "hello"
    (some "llama3.2") none "llama3.2:latest" rfl rfl
